import Mathlib

/-!
Verification of the filtering-and-aggregation pipeline of the
Smart City Citizen Dashboard (`app.py`).

The dashboard is a single straight-line Streamlit script.  We embed the
data-carrying parts of that script shallowly:

* a pandas row becomes a `CitizenRecord`,
* the sidebar widget state becomes a `FilterCriteria`,
* the boolean-mask filter (app.py lines 168-176) becomes `filtered_df`,
* `pd.cut(..., bins=[18,25,35,45,55,65,75,100], labels=..., right=False)`
  (app.py lines 344-347, 483-488) becomes `binAge`,
* the grouped means (app.py lines 317, 490) become `transport_carbon`
  and `recycling_by_age`,
* the EV-by-age-group pipeline (app.py lines 344-352) becomes
  `ev_age_distribution`,
* the data loader with its mock-data fallback (app.py lines 83-115)
  becomes `load_data` / `generate_mock_data`, with numpy's global
  Mersenne-Twister stream abstracted to an explicit concrete PRNG state.

Floats are modelled as rationals; pandas NaN cells (unbinned ages, means
of empty categorical groups) are modelled as `none`.
-/

/-- One row of the dataset (schema of `generate_mock_data`, app.py 101-113). -/
structure CitizenRecord where
  Age : Int
  Gender : String
  District : String
  Mode_of_Transport : String
  Carbon_Footprint_kgCO2 : ℚ
  Steps_Walked : Int
  Sleep_Hours : ℚ
  Social_Media_Hours : ℚ
  Public_Transport_Usage : String
  Recycling_Rate : ℚ
  Digital_Service_Usage : Int
  deriving Repr, DecidableEq

/-- The sidebar widget state feeding the mask (app.py 133-165):
`age_range` slider endpoints and the three multiselect lists.
An empty `district_filter` models both an empty selection and the
`None` of app.py line 157 — both are falsy at line 175. -/
structure FilterCriteria where
  age_min : Int
  age_max : Int
  gender_filter : List String
  district_filter : List String
  transport_filter : List String
  deriving Repr, DecidableEq

/-- The boolean-mask filter, app.py 168-176: one mask over Age, Gender and
Mode_of_Transport, then — only when `district_filter` is truthy — a second
mask over District. -/
def filtered_df (df : List CitizenRecord) (c : FilterCriteria) : List CitizenRecord :=
  let base := df.filter fun r =>
    decide (c.age_min ≤ r.Age ∧ r.Age ≤ c.age_max ∧
      r.Gender ∈ c.gender_filter ∧ r.Mode_of_Transport ∈ c.transport_filter)
  if c.district_filter.isEmpty then base
  else base.filter fun r => decide (r.District ∈ c.district_filter)

/-- The spec's single criteria predicate (spec §4.2), stated in the spec's
words, to be compared with the two-stage `filtered_df` of the code. -/
def criteria_pred (c : FilterCriteria) (r : CitizenRecord) : Prop :=
  c.age_min ≤ r.Age ∧ r.Age ≤ c.age_max ∧
  r.Gender ∈ c.gender_filter ∧ r.Mode_of_Transport ∈ c.transport_filter ∧
  (r.District ∈ c.district_filter ∨ c.district_filter = [])

instance (c : FilterCriteria) (r : CitizenRecord) : Decidable (criteria_pred c r) := by
  unfold criteria_pred; infer_instance

/-- Model of `pd.cut` with `bins=[18,25,35,45,55,65,75,100]`, the seven labels, and
`right=False` (app.py 344-347): every interval is left-closed right-open,
including the last one, `[75,100)`; a value outside every interval gets
NaN, modelled as `none`. -/
def binAge (a : Int) : Option String :=
  if a < 18 then none
  else if a < 25 then some "18-24"
  else if a < 35 then some "25-34"
  else if a < 45 then some "35-44"
  else if a < 55 then some "45-54"
  else if a < 65 then some "55-64"
  else if a < 75 then some "65-74"
  else if a < 100 then some "75+"
  else none

/-- The labels list `age_labels` of app.py line 345. -/
def age_labels : List String :=
  ["18-24", "25-34", "35-44", "45-54", "55-64", "65-74", "75+"]

/-- C1 — app.py's two-stage mask equals one pass of the spec's
conjunctive predicate: the output is exactly the sub-sequence of rows
satisfying `age_min ≤ Age ≤ age_max ∧ Gender ∈ gender_filter ∧
Mode_of_Transport ∈ transport_filter ∧ (District ∈ district_filter ∨
district_filter empty)`. -/
theorem filtered_df_eq_filter_criteria_pred (df : List CitizenRecord) (c : FilterCriteria) :
    filtered_df df c = df.filter fun r => decide (criteria_pred c r) := by
  unfold filtered_df
  by_cases h : c.district_filter.isEmpty
  · simp only [h, if_true]
    refine List.filter_congr fun r _ => ?_
    rw [decide_eq_decide]
    rw [List.isEmpty_iff] at h
    unfold criteria_pred
    tauto
  · simp only [h, if_false]
    rw [List.filter_filter]
    refine List.filter_congr fun r _ => ?_
    rw [Bool.eq_iff_iff]
    simp only [Bool.and_eq_true, decide_eq_true_eq]
    rw [List.isEmpty_iff] at h
    unfold criteria_pred
    tauto

/-- C2 counterexample — with `right=False` every `pd.cut` interval is
right-open, including the last: Age = 100 falls outside `[75,100)` and is
assigned NaN, not "75+". -/
theorem binAge_100_is_none :
    binAge (100 : Int) = none ∧ ¬ binAge (100 : Int) = some "75+" := by
  decide

/-- C2 amended — binning is right-exclusive on the half-open intervals
[18,25),[25,35),[35,45),[45,55),[55,65),[65,75),[75,100) with the seven
labels; Age=25 → "25-34", Age=24 → "18-24", Age=75 → "75+", while ages
below 18 or at/above 100 fall into no bin. -/
theorem binAge_label1 (a : Int) : binAge a = some "18-24" ↔ 18 ≤ a ∧ a < 25 := by
  unfold binAge; split_ifs <;> simp_all <;> omega

theorem binAge_label2 (a : Int) : binAge a = some "25-34" ↔ 25 ≤ a ∧ a < 35 := by
  unfold binAge; split_ifs <;> simp_all <;> omega

theorem binAge_label3 (a : Int) : binAge a = some "35-44" ↔ 35 ≤ a ∧ a < 45 := by
  unfold binAge; split_ifs <;> simp_all <;> omega

theorem binAge_label4 (a : Int) : binAge a = some "45-54" ↔ 45 ≤ a ∧ a < 55 := by
  unfold binAge; split_ifs <;> simp_all <;> omega

theorem binAge_label5 (a : Int) : binAge a = some "55-64" ↔ 55 ≤ a ∧ a < 65 := by
  unfold binAge; split_ifs <;> simp_all <;> omega

theorem binAge_label6 (a : Int) : binAge a = some "65-74" ↔ 65 ≤ a ∧ a < 75 := by
  unfold binAge; split_ifs <;> simp_all <;> omega

theorem binAge_label7 (a : Int) : binAge a = some "75+" ↔ 75 ≤ a ∧ a < 100 := by
  unfold binAge; split_ifs <;> simp_all <;> omega

theorem binAge_nan (a : Int) : binAge a = none ↔ a < 18 ∨ 100 ≤ a := by
  unfold binAge; split_ifs <;> simp_all <;> omega

theorem binAge_spec (a : Int) :
    (binAge a = some "18-24" ↔ 18 ≤ a ∧ a < 25) ∧
    (binAge a = some "25-34" ↔ 25 ≤ a ∧ a < 35) ∧
    (binAge a = some "35-44" ↔ 35 ≤ a ∧ a < 45) ∧
    (binAge a = some "45-54" ↔ 45 ≤ a ∧ a < 55) ∧
    (binAge a = some "55-64" ↔ 55 ≤ a ∧ a < 65) ∧
    (binAge a = some "65-74" ↔ 65 ≤ a ∧ a < 75) ∧
    (binAge a = some "75+" ↔ 75 ≤ a ∧ a < 100) ∧
    (binAge a = none ↔ a < 18 ∨ 100 ≤ a) ∧
    binAge 25 = some "25-34" ∧ binAge 24 = some "18-24" ∧
    binAge 75 = some "75+" :=
  ⟨binAge_label1 a, binAge_label2 a, binAge_label3 a, binAge_label4 a,
   binAge_label5 a, binAge_label6 a, binAge_label7 a, binAge_nan a,
   by decide, by decide, by decide⟩

/-- The categorical value lists of `generate_mock_data`, app.py 96-98. -/
def transport_modes : List String :=
  ["Bus", "Car", "Bicycle", "Walk", "EV", "Train", "Motorcycle"]

def genders : List String := ["Male", "Female", "Non-binary"]

def districts : List String :=
  ["Downtown", "Uptown", "Westside", "Eastside", "Suburbs", "Industrial"]

/-- A row with given demographics and neutral numeric fields, for concrete
test datasets. -/
def mkRow (age : Int) (g d m : String) : CitizenRecord :=
  { Age := age, Gender := g, District := d, Mode_of_Transport := m,
    Carbon_Footprint_kgCO2 := 0, Steps_Walked := 0, Sleep_Hours := 0,
    Social_Media_Hours := 0, Public_Transport_Usage := "Never",
    Recycling_Rate := 0, Digital_Service_Usage := 1 }

/-- The spec §8 scenario dataset: 10 rows, 5 of them Male with ages
[20,30,40,50,60], the other 5 non-Male. -/
def scenario_df : List CitizenRecord :=
  [mkRow 20 "Male" "Downtown" "Bus",
   mkRow 30 "Male" "Uptown" "Car",
   mkRow 40 "Male" "Westside" "Bicycle",
   mkRow 50 "Male" "Eastside" "Walk",
   mkRow 60 "Male" "Suburbs" "EV",
   mkRow 25 "Female" "Downtown" "Train",
   mkRow 35 "Female" "Uptown" "Motorcycle",
   mkRow 45 "Female" "Westside" "Bus",
   mkRow 55 "Non-binary" "Eastside" "Car",
   mkRow 65 "Female" "Suburbs" "Walk"]

/-- The spec §8 scenario criteria: ages 25-55, genders = {Male}, all
transport modes and all districts selected. -/
def scenario_criteria : FilterCriteria :=
  { age_min := 25, age_max := 55, gender_filter := ["Male"],
    district_filter := districts, transport_filter := transport_modes }

/-- C3 counterexample — the scenario filter keeps the Male rows of ages
30, 40 AND 50 (50 ≤ 55 passes the inclusive upper bound): 3 rows, not the
claimed 2. -/
theorem scenario_filter_not_two_rows :
    (filtered_df scenario_df scenario_criteria).map CitizenRecord.Age = [30, 40, 50] ∧
    (filtered_df scenario_df scenario_criteria).length ≠ 2 := by
  decide

/-- C3 amended — the scenario yields exactly the three Male rows with
ages 30, 40 and 50. -/
theorem scenario_filter_three_rows :
    filtered_df scenario_df scenario_criteria =
      [mkRow 30 "Male" "Uptown" "Car",
       mkRow 40 "Male" "Westside" "Bicycle",
       mkRow 50 "Male" "Eastside" "Walk"] ∧
    (filtered_df scenario_df scenario_criteria).length = 3 := by
  decide

/-- C10 — empty selections are asymmetric: an empty gender or transport
multiselect produces an empty-everywhere mask (`Series.isin([])` is all
False), while an empty district selection is falsy at `if district_filter`
(app.py 175) and skips the district mask entirely, so rows of every
district pass. -/
theorem empty_selection_asymmetry (df : List CitizenRecord) (amin amax : Int)
    (gs ds ts : List String) :
    filtered_df df ⟨amin, amax, [], ds, ts⟩ = [] ∧
    filtered_df df ⟨amin, amax, gs, ds, []⟩ = [] ∧
    filtered_df df ⟨amin, amax, gs, [], ts⟩ =
      df.filter (fun r => decide (amin ≤ r.Age ∧ r.Age ≤ amax ∧
        r.Gender ∈ gs ∧ r.Mode_of_Transport ∈ ts)) := by
  refine ⟨?_, ?_, ?_⟩
  · unfold filtered_df
    by_cases h : ds.isEmpty <;> simp [h]
  · unfold filtered_df
    by_cases h : ds.isEmpty <;> simp [h]
  · simp [filtered_df]

/-- Model of `Series.mean` on the rationals modelling floats. Only ever applied to
nonempty groups below (pandas would give NaN on an empty one). -/
def qmean (xs : List ℚ) : ℚ := xs.sum / xs.length

/-- Model of `groupby(plain object column)[value].mean()` as at app.py 317, 373,
421, 511: the keys are exactly the values observed in the rows (pandas
additionally sorts them; key order is irrelevant to every claim here). -/
def meanBy (g : CitizenRecord → String) (v : CitizenRecord → ℚ)
    (rows : List CitizenRecord) : List (String × ℚ) :=
  ((rows.map g).dedup).map fun k =>
    (k, qmean ((rows.filter fun r => decide (g r = k)).map v))

/-- The table `transport_carbon` of app.py 317 (over the filtered table). -/
def transport_carbon (rows : List CitizenRecord) : List (String × ℚ) :=
  meanBy (fun r => r.Mode_of_Transport) (fun r => r.Carbon_Footprint_kgCO2) rows

/-- Model of `groupby(categorical column)[value].mean()` with pandas' default
`observed=False`, as at app.py 490 where the key column is the
`pd.cut`-produced categorical `Age_Group`: the result has one entry per
declared category, a NaN (`none`) mean for categories with no rows, and
NaN-keyed rows (unbinned ages) are dropped. -/
def meanByCat (cats : List String) (g : CitizenRecord → Option String)
    (v : CitizenRecord → ℚ) (rows : List CitizenRecord) : List (String × Option ℚ) :=
  cats.map fun k =>
    let grp := rows.filter fun r => decide (g r = some k)
    (k, if grp.isEmpty then none else some (qmean (grp.map v)))

/-- The table `recycling_by_age` of app.py 490 (over the filtered table, after the
Age_Group assignment of app.py 481-488). -/
def recycling_by_age (rows : List CitizenRecord) : List (String × Option ℚ) :=
  meanByCat age_labels (fun r => binAge r.Age) (fun r => r.Recycling_Rate) rows

/-- C4 counterexample — the Age_Group grouped mean of app.py 490 is a
groupby over a pandas categorical with default `observed=False`: on an
empty filtered table it returns one NaN entry per declared age-group label,
not an empty mapping. -/
theorem recycling_by_age_empty_not_empty :
    recycling_by_age [] = age_labels.map (fun l => (l, none)) ∧
    recycling_by_age [] ≠ [] ∧
    ("18-24", (none : Option ℚ)) ∈ recycling_by_age [] := by
  decide

/-- C4 amended — grouped means over a plain object column (such as
carbon by transport mode) do omit empty groups and give an empty mapping
on empty input; but the Age_Group grouped mean (app.py 490), a groupby
over a categorical with default `observed=False`, always emits one entry
per declared label, with a NaN placeholder exactly for the labels whose
group is empty. -/
theorem mean_by_groups (g : CitizenRecord → String) (v : CitizenRecord → ℚ)
    (rows : List CitizenRecord) :
    meanBy g v [] = [] ∧
    transport_carbon [] = [] ∧
    (∀ k x, (k, x) ∈ meanBy g v rows → ∃ r ∈ rows, g r = k) ∧
    (recycling_by_age rows).map Prod.fst = age_labels ∧
    (∀ k, (k, (none : Option ℚ)) ∈ recycling_by_age rows →
      rows.filter (fun r => decide (binAge r.Age = some k)) = []) := by
  refine ⟨rfl, rfl, ?_, rfl, ?_⟩
  · intro k x h
    simp only [meanBy, List.mem_map, List.mem_dedup] at h
    obtain ⟨k', hk', heq⟩ := h
    obtain ⟨r, hr, hg⟩ := hk'
    exact ⟨r, hr, by rw [hg, (Prod.mk.injEq _ _ _ _).mp heq |>.1]⟩
  · intro k h
    simp only [recycling_by_age, meanByCat, List.mem_map] at h
    obtain ⟨l, _, heq⟩ := h
    obtain ⟨hl, hval⟩ := (Prod.mk.injEq _ _ _ _).mp heq
    subst hl
    by_cases he : (rows.filter fun r => decide (binAge r.Age = some l)).isEmpty
    · exact List.isEmpty_iff.mp he
    · rw [if_neg he] at hval
      exact absurd hval (by simp)

/-- Witness for `mean_by_groups` at a concrete one-row table. -/
theorem mean_by_groups_witness :
    (∃ r ∈ [mkRow 30 "Male" "Downtown" "EV"], r.Mode_of_Transport = "EV") ∧
    ([mkRow 30 "Male" "Downtown" "EV"].filter
      (fun r => decide (binAge r.Age = some "75+"))) = [] :=
  ⟨(mean_by_groups (fun r => r.Mode_of_Transport) (fun r => r.Carbon_Footprint_kgCO2)
      [mkRow 30 "Male" "Downtown" "EV"]).2.2.1 "EV" 0 (by simp [meanBy, mkRow, qmean]),
   (mean_by_groups (fun r => r.Mode_of_Transport) (fun r => r.Carbon_Footprint_kgCO2)
      [mkRow 30 "Male" "Downtown" "EV"]).2.2.2.2 "75+" (by decide)⟩

/-- Model of `df_age_group = df.copy(); df_age_group["Age_Group"] = pd.cut(...)`
(app.py 346-347): every row paired with its Age_Group cell. -/
def df_age_group (df : List CitizenRecord) : List (CitizenRecord × Option String) :=
  df.map fun r => (r, binAge r.Age)

/-- Model of `ev_age_df = df_age_group[df_age_group["Mode_of_Transport"] == "EV"]`
(app.py 350). -/
def ev_age_df (df : List CitizenRecord) : List (CitizenRecord × Option String) :=
  (df_age_group df).filter fun x => decide (x.1.Mode_of_Transport = "EV")

/-- Model of `ev_age_df["Age_Group"].value_counts().sort_index()` (app.py 351):
`value_counts` over a categorical reports every declared category (zeros
included), drops NaN, and `sort_index` puts them in label order. -/
def ev_age_distribution (df : List CitizenRecord) : List (String × Nat) :=
  age_labels.map fun l =>
    (l, ((ev_age_df df).filter fun x => decide (x.2 = some l)).length)

/-- The derived tables one interaction produces, in script order. -/
structure DashboardOutputs where
  filtered : List CitizenRecord
  transport_carbon_out : List (String × ℚ)
  ev_age_out : List (String × Nat)
  recycling_out : List (String × Option ℚ)

/-- One pass of the script body over the loaded table `df` and the sidebar
state `c`: the charts of app.py 317 and 490 read `filtered_df`, while the
EV-by-age-group chart of app.py 344-352 reads the unfiltered `df`. -/
def dashboard (df : List CitizenRecord) (c : FilterCriteria) : DashboardOutputs :=
  let fdf := filtered_df df c
  { filtered := fdf
    transport_carbon_out := transport_carbon fdf
    ev_age_out := ev_age_distribution df
    recycling_out := recycling_by_age fdf }

/-- C5 — the EV-users-by-age-group table is computed from the
unfiltered dataset: it is identical under any two filter criteria, and each
of its entries counts exactly the rows of the full dataset with
Mode_of_Transport = "EV" falling in that age bin. -/
theorem ev_age_out_unfiltered (df : List CitizenRecord) (c c' : FilterCriteria) :
    (dashboard df c).ev_age_out = (dashboard df c').ev_age_out ∧
    (dashboard df c).ev_age_out = age_labels.map (fun l =>
      (l, (df.filter fun r =>
        decide (r.Mode_of_Transport = "EV" ∧ binAge r.Age = some l)).length)) := by
  refine ⟨rfl, ?_⟩
  show ev_age_distribution df = _
  unfold ev_age_distribution ev_age_df df_age_group
  refine List.map_congr_left fun l _ => ?_
  rw [List.filter_filter, List.filter_map, List.length_map]
  refine congrArg (fun n => (l, n))
    (congrArg List.length (List.filter_congr fun r _ => ?_))
  rw [Bool.eq_iff_iff]
  simp only [Function.comp, Bool.and_eq_true, decide_eq_true_eq]
  tauto

/-- The state of numpy's global random stream.  The Mersenne-Twister
internals are abstracted to a concrete 32-bit LCG word: the claims here
(determinism under `np.random.seed(42)` and the value ranges imposed by
`randint` bounds and `.clip`) do not depend on the distribution law,
only on the seeding discipline and on each draw's support. -/
structure RngState where
  word : Nat
  deriving Repr, DecidableEq

/-- Model of `np.random.seed(n)` (app.py 93): resets the stream deterministically. -/
def np_seed (n : Nat) : RngState := ⟨n % 2 ^ 32⟩

/-- One raw draw from the stream (Numerical-Recipes LCG as a stand-in). -/
def rngNext (s : RngState) : Nat × RngState :=
  let x := (1664525 * s.word + 1013904223) % 2 ^ 32
  (x, ⟨x⟩)

/-- Model of `np.random.randint(lo, hi)`: uniform integer in `[lo, hi)`. -/
def randint (lo hi : Int) (s : RngState) : Int × RngState :=
  let (k, s') := rngNext s
  (lo + (k : Int) % (hi - lo), s')

/-- Model of `np.random.choice(xs)`: one element of `xs`. -/
def np_choice (xs : List String) (s : RngState) : String × RngState :=
  let (k, s') := rngNext s
  (xs.getD (k % xs.length) "", s')

/-- Draws of `np.random.normal(mu, sigma)`, modelled as a rational draw supported on
`mu ± 4·sigma`, wide enough that every `.clip` below is active. -/
def np_normal (mu sigma : ℚ) (s : RngState) : ℚ × RngState :=
  let (k, s') := rngNext s
  (mu + sigma * (((k % 2001 : Nat) : ℚ) - 1000) / 250, s')

/-- Draws of `np.random.exponential(m)`, modelled as a rational draw in `[0, 10·m)`. -/
def np_exponential (m : ℚ) (s : RngState) : ℚ × RngState :=
  let (k, s') := rngNext s
  (m * ((k % 2000 : Nat) : ℚ) / 200, s')

/-- Model of `ndarray.clip(lo, hi)`. -/
def np_clip (x lo hi : ℚ) : ℚ := min hi (max lo x)

/-- An array of `n` draws, threading the stream left to right. -/
def drawMany {α : Type} (d : RngState → α × RngState) : Nat → RngState → List α × RngState
  | 0, s => ([], s)
  | n + 1, s =>
    let (x, s') := d s
    let (xs, s'') := drawMany d n s'
    (x :: xs, s'')

/-- The columns of app.py 101-113 in source order, each a length-`n` array
drawn from the stream that `np.random.seed(42)` reset. -/
def ages_col (n : Nat) : List Int × RngState := drawMany (randint 18 80) n (np_seed 42)

def genders_col (n : Nat) : List String × RngState :=
  drawMany (np_choice genders) n (ages_col n).2

def districts_col (n : Nat) : List String × RngState :=
  drawMany (np_choice districts) n (genders_col n).2

def modes_col (n : Nat) : List String × RngState :=
  drawMany (np_choice transport_modes) n (districts_col n).2

def carbons_col (n : Nat) : List ℚ × RngState :=
  drawMany (fun t =>
    let (x, t') := np_normal 10 5 t
    (np_clip x 0 30, t')) n (modes_col n).2

def steps_col (n : Nat) : List Int × RngState :=
  drawMany (randint 1000 15000) n (carbons_col n).2

def sleeps_col (n : Nat) : List ℚ × RngState :=
  drawMany (fun t =>
    let (x, t') := np_normal 7 (3 / 2) t
    (np_clip x 4 10, t')) n (steps_col n).2

def socials_col (n : Nat) : List ℚ × RngState :=
  drawMany (fun t =>
    let (x, t') := np_exponential 2 t
    (np_clip x 0 10, t')) n (sleeps_col n).2

def pubs_col (n : Nat) : List String × RngState :=
  drawMany (np_choice ["Daily", "Weekly", "Monthly", "Rarely", "Never"]) n (socials_col n).2

def recycs_col (n : Nat) : List ℚ × RngState :=
  drawMany (fun t =>
    let (x, t') := np_normal 65 20 t
    (np_clip x 0 100, t')) n (pubs_col n).2

def digitals_col (n : Nat) : List Int × RngState :=
  drawMany (randint 1 10) n (recycs_col n).2

/-- Model of `generate_mock_data(n_samples)` (app.py 92-115): `np.random.seed(42)`
first discards whatever state `s0` the global stream was in, then the
eleven columns are drawn and assembled row-wise into the DataFrame. -/
def generate_mock_data (s0 : RngState) (n_samples : Nat) : List CitizenRecord × RngState :=
  ((List.range n_samples).map fun i =>
    { Age := (ages_col n_samples).1.getD i 0
      Gender := (genders_col n_samples).1.getD i ""
      District := (districts_col n_samples).1.getD i ""
      Mode_of_Transport := (modes_col n_samples).1.getD i ""
      Carbon_Footprint_kgCO2 := (carbons_col n_samples).1.getD i 0
      Steps_Walked := (steps_col n_samples).1.getD i 0
      Sleep_Hours := (sleeps_col n_samples).1.getD i 0
      Social_Media_Hours := (socials_col n_samples).1.getD i 0
      Public_Transport_Usage := (pubs_col n_samples).1.getD i ""
      Recycling_Rate := (recycs_col n_samples).1.getD i 0
      Digital_Service_Usage := (digitals_col n_samples).1.getD i 0 },
   (digitals_col n_samples).2)

set_option maxRecDepth 4000 in
/-- C7 — `generate_mock_data` reseeds with the fixed seed before
drawing, so its output is the same from any two incoming stream states; in
particular calling `generate_mock_data(300)` twice in a row (second call on
the stream state the first one left behind) gives identical rows. -/
theorem generate_mock_data_deterministic (s s' : RngState) (n : Nat) :
    (generate_mock_data s n).1 = (generate_mock_data s' n).1 ∧
    (generate_mock_data (generate_mock_data s 300).2 300).1 =
      (generate_mock_data s 300).1 :=
  ⟨rfl, by unfold generate_mock_data; rfl⟩

theorem drawMany_length {α : Type} (d : RngState → α × RngState) (n : Nat) (s : RngState) :
    (drawMany d n s).1.length = n := by
  induction n generalizing s with
  | zero => rfl
  | succ m ih => simp [drawMany, ih]

theorem drawMany_forall {α : Type} (d : RngState → α × RngState) (P : α → Prop)
    (hd : ∀ s, P (d s).1) (n : Nat) (s : RngState) :
    ∀ x ∈ (drawMany d n s).1, P x := by
  induction n generalizing s with
  | zero => intro x hx; simp [drawMany] at hx
  | succ m ih =>
    intro x hx
    simp only [drawMany] at hx
    rcases List.mem_cons.mp hx with h | h
    · exact h ▸ hd s
    · exact ih _ _ h

theorem drawMany_getD {α : Type} (d : RngState → α × RngState) (P : α → Prop)
    (hd : ∀ s, P (d s).1) (n i : Nat) (s : RngState) (hi : i < n) (dflt : α) :
    P ((drawMany d n s).1.getD i dflt) := by
  have hlen : (drawMany d n s).1.length = n := drawMany_length d n s
  rw [List.getD_eq_getElem _ _ (by rw [hlen]; exact hi)]
  exact drawMany_forall d P hd n s _ (List.getElem_mem _)

theorem randint_range (lo hi : Int) (h : lo < hi) (s : RngState) :
    lo ≤ (randint lo hi s).1 ∧ (randint lo hi s).1 < hi := by
  have h1 : (0 : Int) ≤ ((rngNext s).1 : Int) % (hi - lo) :=
    Int.emod_nonneg _ (by omega)
  have h2 : ((rngNext s).1 : Int) % (hi - lo) < hi - lo :=
    Int.emod_lt_of_pos _ (by omega)
  unfold randint
  constructor <;> simp <;> omega

theorem np_clip_range (x lo hi : ℚ) (h : lo ≤ hi) :
    lo ≤ np_clip x lo hi ∧ np_clip x lo hi ≤ hi :=
  ⟨le_min h (le_max_left lo x), min_le_left hi _⟩

/-- C8 — every generated row respects the domains the distributions and
clips impose: Age ∈ [18,80), Steps_Walked ∈ [1000,15000),
Digital_Service_Usage in 1-10 (`randint(1,10)` actually draws from [1,10),
a subset), Carbon ∈ [0,30], Sleep ∈ [4,10], Social_Media ∈ [0,10],
Recycling ∈ [0,100]. -/
theorem generate_mock_data_ranges (s : RngState) (n : Nat) (r : CitizenRecord)
    (hr : r ∈ (generate_mock_data s n).1) :
    (18 ≤ r.Age ∧ r.Age < 80) ∧
    (1000 ≤ r.Steps_Walked ∧ r.Steps_Walked < 15000) ∧
    (1 ≤ r.Digital_Service_Usage ∧ r.Digital_Service_Usage ≤ 10) ∧
    (0 ≤ r.Carbon_Footprint_kgCO2 ∧ r.Carbon_Footprint_kgCO2 ≤ 30) ∧
    (4 ≤ r.Sleep_Hours ∧ r.Sleep_Hours ≤ 10) ∧
    (0 ≤ r.Social_Media_Hours ∧ r.Social_Media_Hours ≤ 10) ∧
    (0 ≤ r.Recycling_Rate ∧ r.Recycling_Rate ≤ 100) := by
  obtain ⟨i, hi, rfl⟩ := List.mem_map.mp hr
  rw [List.mem_range] at hi
  refine ⟨?_, ?_, ?_, ?_, ?_, ?_, ?_⟩
  · exact drawMany_getD _ (fun a => 18 ≤ a ∧ a < 80)
      (randint_range 18 80 (by omega)) n i _ hi 0
  · exact drawMany_getD _ (fun a => 1000 ≤ a ∧ a < 15000)
      (randint_range 1000 15000 (by omega)) n i _ hi 0
  · have h := drawMany_getD _ (fun a => 1 ≤ a ∧ a < 10)
      (randint_range 1 10 (by omega)) n i ((recycs_col n).2) hi 0
    exact ⟨h.1, h.2.le⟩
  · exact drawMany_getD _ (fun a => 0 ≤ a ∧ a ≤ 30)
      (fun t => np_clip_range (np_normal 10 5 t).1 0 30 (by norm_num)) n i _ hi 0
  · exact drawMany_getD _ (fun a => 4 ≤ a ∧ a ≤ 10)
      (fun t => np_clip_range (np_normal 7 (3 / 2) t).1 4 10 (by norm_num)) n i _ hi 0
  · exact drawMany_getD _ (fun a => 0 ≤ a ∧ a ≤ 10)
      (fun t => np_clip_range (np_exponential 2 t).1 0 10 (by norm_num)) n i _ hi 0
  · exact drawMany_getD _ (fun a => 0 ≤ a ∧ a ≤ 100)
      (fun t => np_clip_range (np_normal 65 20 t).1 0 100 (by norm_num)) n i _ hi 0

/-- The row `generate_mock_data` produces from stream state 0 with n = 1,
written out as a literal. -/
def mock_row_0 : CitizenRecord :=
  { Age := 41, Gender := "Female", District := "Industrial",
    Mode_of_Transport := "Car", Carbon_Footprint_kgCO2 := 1441 / 50,
    Steps_Walked := 4632, Sleep_Hours := 4, Social_Media_Hours := 10,
    Public_Transport_Usage := "Never", Recycling_Rate := 1207 / 25,
    Digital_Service_Usage := 5 }

/-- Witness for `generate_mock_data_ranges` on a concretely generated row. -/
theorem generate_mock_data_ranges_witness :
    (18 ≤ mock_row_0.Age ∧ mock_row_0.Age < 80) ∧
    (1000 ≤ mock_row_0.Steps_Walked ∧ mock_row_0.Steps_Walked < 15000) ∧
    (1 ≤ mock_row_0.Digital_Service_Usage ∧ mock_row_0.Digital_Service_Usage ≤ 10) ∧
    (0 ≤ mock_row_0.Carbon_Footprint_kgCO2 ∧ mock_row_0.Carbon_Footprint_kgCO2 ≤ 30) ∧
    (4 ≤ mock_row_0.Sleep_Hours ∧ mock_row_0.Sleep_Hours ≤ 10) ∧
    (0 ≤ mock_row_0.Social_Media_Hours ∧ mock_row_0.Social_Media_Hours ≤ 10) ∧
    (0 ≤ mock_row_0.Recycling_Rate ∧ mock_row_0.Recycling_Rate ≤ 100) :=
  generate_mock_data_ranges ⟨0⟩ 1 mock_row_0 (by
    have h : (generate_mock_data ⟨0⟩ 1).1 = [mock_row_0] := by
      simp [generate_mock_data, ages_col, genders_col, districts_col, modes_col,
        carbons_col, steps_col, sleeps_col, socials_col, pubs_col, recycs_col,
        digitals_col, drawMany, rngNext, np_seed, randint, np_choice, np_normal,
        np_exponential, np_clip, mock_row_0, transport_modes, genders, districts,
        List.range_succ, List.range_zero]
      norm_num [min_def, max_def]
    rw [h]
    exact List.mem_singleton.mpr rfl)

/-- What `pd.read_csv("dataset/smart_city_citizen_activity.csv")` can do in
the `try` of app.py 85-87: deliver a table, or raise `FileNotFoundError`. -/
inductive ReadResult where
  | ok (rows : List CitizenRecord)
  | fileNotFound

/-- Model of `load_data` (app.py 84-90): return the file's rows on success; on
`FileNotFoundError` show the `st.info` notice (the `Bool` component) and
return `generate_mock_data(300)` drawn from the ambient stream `s`. -/
def load_data (s : RngState) : ReadResult → List CitizenRecord × Bool
  | .ok rows => (rows, false)
  | .fileNotFound => ((generate_mock_data s 300).1, true)

/-- The `@st.cache_data` wrapper on `load_data` (app.py 83): a populated
cache short-circuits the body, so the notice fires at most once per
session. -/
def cached_load (cache : Option (List CitizenRecord)) (s : RngState)
    (r : ReadResult) : List CitizenRecord × Option (List CitizenRecord) × Bool :=
  match cache with
  | some d => (d, some d, false)
  | none =>
    let (d, notice) := load_data s r
    (d, some d, notice)

/-- C6 — `load_data` returns the file's rows (no notice) when the read
succeeds; on file-not-found it falls back to `generate_mock_data(300)`,
surfaces the informational notice, and returns normally; and under the
`st.cache_data` wrapper a second call hits the cache, so the notice is
one-time. -/
theorem load_data_fallback (s s' : RngState) (rows : List CitizenRecord)
    (r : ReadResult) :
    load_data s (ReadResult.ok rows) = (rows, false) ∧
    load_data s ReadResult.fileNotFound = ((generate_mock_data s 300).1, true) ∧
    (cached_load (cached_load none s r).2.1 s' r).2.2 = false := by
  refine ⟨rfl, rfl, ?_⟩
  cases r <;> rfl

/-- A pandas DataFrame as the script handles it: each row together with its
`Age_Group` cell (`none` both before the column is assigned and for NaN). -/
abbrev PdTable := List (CitizenRecord × Option String)

/-- The freshly loaded table: no `Age_Group` column yet. -/
def load_table (df : List CitizenRecord) : PdTable := df.map fun r => (r, none)

/-- Model of `DataFrame.copy()` — a new object with the same contents. -/
def copy_table (t : PdTable) : PdTable := t

/-- Model of `t["Age_Group"] = pd.cut(t["Age"], ...)` (app.py 347, 483-488) — the
in-place column assignment, the script's only mutating operation. -/
def assign_age_group (t : PdTable) : PdTable := t.map fun x => (x.1, binAge x.1.Age)

/-- Boolean-mask selection (app.py 168-176) over a table; pandas returns a
new object. -/
def mask_table (t : PdTable) (c : FilterCriteria) : PdTable :=
  let base := t.filter fun x =>
    decide (c.age_min ≤ x.1.Age ∧ x.1.Age ≤ c.age_max ∧
      x.1.Gender ∈ c.gender_filter ∧ x.1.Mode_of_Transport ∈ c.transport_filter)
  if c.district_filter.isEmpty then base
  else base.filter fun x => decide (x.1.District ∈ c.district_filter)

/-- The script's table-level steps as updates on an object heap (address =
list index): `df` at 0; `filtered_df = df[mask]` allocates 1 (app.py 168);
`df_age_group = df.copy()` allocates 2 (346) and is assigned its Age_Group
column IN PLACE (347); `ev_age_df` allocates 3 (350); the Tab-3
`df_age_group = filtered_df.copy()` allocates 4 (481) and is assigned IN
PLACE (483-488). -/
def script_heap (df : List CitizenRecord) (c : FilterCriteria) : List PdTable :=
  let h0 : List PdTable := [load_table df]
  let h1 := h0 ++ [mask_table (h0.getD 0 []) c]
  let h2 := h1 ++ [copy_table (h1.getD 0 [])]
  let h3 := h2.set 2 (assign_age_group (h2.getD 2 []))
  let h4 := h3 ++ [(h3.getD 2 []).filter fun x => decide (x.1.Mode_of_Transport = "EV")]
  let h5 := h4 ++ [copy_table (h4.getD 1 [])]
  h5.set 4 (assign_age_group (h5.getD 4 []))

/-- C9 — the script never mutates the loaded dataset: after all the
filtering and the two in-place `Age_Group` assignments (which hit only the
`.copy()` objects at addresses 2 and 4), the object `df` points to still
holds exactly the original rows and columns, and `filtered_df` is a fresh
derived copy. -/
theorem script_heap_no_mutation (df : List CitizenRecord) (c : FilterCriteria) :
    (script_heap df c).getD 0 [] = load_table df ∧
    ((script_heap df c).getD 0 []).map Prod.fst = df ∧
    (script_heap df c).getD 1 [] = mask_table (load_table df) c := by
  refine ⟨rfl, ?_, rfl⟩
  show (load_table df).map Prod.fst = df
  simp [load_table, Function.comp_def]
